import Mathlib

/-!
Verification development for the x402 payment facilitator.

The definitions below are a shallow embedding of the facilitator's
verification-and-settlement engine:

* `packages/facilitator/src/routes/verify.ts`  (`verifyPayment`)
* `packages/facilitator/src/routes/settle.ts`  (`settlePayment`)
* `packages/facilitator/src/solana/verify.ts`  (`verifySolanaPayment`)
* `packages/facilitator/src/solana/settle.ts`  (`settleSolanaPayment`)
* `packages/facilitator/src/routes/supported.ts` (`getSupportedNetworks`)
* `packages/facilitator/src/config.ts`         (`Config`)

External effects (EIP-712 signature checking, Ed25519 signature checking,
transaction parsing, RPC balance queries, on-chain submission, `Math.random`)
are modelled as oracles carried in an environment record; every call the code
makes to such an oracle appears explicitly, and the settlement model
additionally returns a `SettleEffects` record counting the network submissions
performed and recording whether a facilitator signing key was loaded
(`privateKeyToAccount` / `Keypair.fromSecretKey`).  JavaScript string
truthiness (`x || 'unknown'`, `if (!signedTransaction)`) is modelled by
comparison with the empty string.  Base64/JSON decoding of the payment header
is modelled by an `Except` input: `.ok` is a successfully decoded header,
`.error` the exception text of a failed decode.
-/

namespace X402

/-- Boolean substring test: `containsStr sub s` is `true` iff `sub` occurs
contiguously inside `s`.  Used to state the specification's
"reason contains …" properties. -/
def containsStr (sub s : String) : Bool :=
  decide (sub.toList <:+: s.toList)

/-- JavaScript `x || 'unknown'` on a string: the empty string is falsy. -/
def orUnknown (s : String) : String :=
  if s = "" then "unknown" else s

/-- JavaScript `toLowerCase`, restricted to the ASCII identifiers the
facilitator compares (character-wise lower-casing). -/
def jsToLower (s : String) : String :=
  String.mk (s.data.map Char.toLower)

/-- Facilitator configuration, from `config.ts`.  Unset environment variables
default to the empty string there, so "configured" means "not `\x22\x22`". -/
structure Config where
  radiusRpcUrl : String
  radiusFacilitatorPrivateKey : String
  radiusFacilitatorAddress : String
  radiusMerchantAddress : String
  radiusChainId : Nat
  baseRpcUrl : String
  baseFacilitatorPrivateKey : String
  baseFacilitatorAddress : String
  baseChainId : Nat
  baseSbcTokenAddress : String
  baseSbcDecimals : Nat
  solanaRpcUrl : String
  solanaFacilitatorPrivateKey : String
  solanaFacilitatorAddress : String
  solanaMerchantAddress : String
  sbcTokenAddress : String

/-- Decoded payment payload (the `payload` object of the payment header).
`signedTransaction` is the optional pre-signed raw transaction used by
Radius payments (the spec's `ledgerSpecificAuth`). -/
structure PaymentPayload where
  fromAddr : String
  toAddr : String
  amount : Nat
  nonce : Nat
  deadline : Nat
  signature : String
  signedTransaction : Option String
deriving DecidableEq

/-- Decoded payment header: `{ scheme, network, payload }`. -/
structure PaymentData where
  scheme : String
  network : String
  payload : PaymentPayload
deriving DecidableEq

/-- Merchant payment requirements as read by the facilitator.  The EVM path
reads `maxAmountRequired`/`payTo`; the Solana path reads
`maxAmount`/`recipientAddress`. -/
structure Requirements where
  maxAmountRequired : Nat
  payTo : String
  maxAmount : Nat
  recipientAddress : String
deriving DecidableEq

/-- EIP-712 domain, from `getDomain` in `routes/verify.ts`. -/
structure Eip712Domain where
  name : String
  version : String
  chainId : Nat
  verifyingContract : String
deriving DecidableEq

/-- The `getDomain` helper of `routes/verify.ts`. -/
def getDomain (verifyingContract : String) (chainId : Nat) : Eip712Domain :=
  { name := "SBC x402 Facilitator"
  , version := "1"
  , chainId := chainId
  , verifyingContract := verifyingContract }

/-- The EIP-712 `Payment` struct `{from, to, amount, nonce, deadline}`. -/
structure PaymentMessage where
  fromAddr : String
  toAddr : String
  amount : Nat
  nonce : Nat
  deadline : Nat
deriving DecidableEq

/-- One call to viem's `verifyTypedData`: the claimed signer address, the
domain, the typed message and the signature bytes. -/
structure TypedDataQuery where
  address : String
  domain : Eip712Domain
  message : PaymentMessage
  signature : String
deriving DecidableEq

/-- Result of viem's `parseTransaction` on a raw signed transaction: the
fields the facilitator inspects. -/
structure ParsedTransaction where
  toAddr : Option String
  value : Nat
  chainId : Nat
deriving DecidableEq

/-- One call to `nacl.sign.detached.verify`: message, signature and public
key (the payload's `from`). -/
structure EddsaQuery where
  message : String
  signature : String
  publicKey : String
deriving DecidableEq

/-- One balance query: ERC-20 `balanceOf` when `tokenAddress` is present,
native `getBalance` otherwise. -/
structure BalanceQuery where
  tokenAddress : Option String
  rpcUrl : String
  address : String
deriving DecidableEq

/-- Environment for verification: the clock and the outcome of each external
call (`Except.error` models a thrown exception). -/
structure VerifyEnv where
  now : Nat
  verifyTypedData : TypedDataQuery → Except String Bool
  parseTransaction : String → Option ParsedTransaction
  getBalance : BalanceQuery → Except String Nat
  eddsaVerify : EddsaQuery → Except String Bool
  getSolBalance : String → Except String Nat

/-- Verification response. `status` is the HTTP status (`200` for business
results, `500` for the catch-all internal error path).  `payer` is `none`
when the response carries no payer field (the Solana verify result). -/
structure VerifyResult where
  status : Nat
  isValid : Bool
  payer : Option String
  invalidReason : Option String
deriving DecidableEq

/-- Result shape of `verifySolanaPayment` (no payer field). -/
structure SolanaVerifyResult where
  isValid : Bool
  invalidReason : Option String
deriving DecidableEq

/-- The pipe-delimited message signed by Solana payers, from
`constructMessage` in `solana/verify.ts`. -/
def constructMessage (p : PaymentPayload) : String :=
  "from:" ++ p.fromAddr ++ "|to:" ++ p.toAddr ++ "|amount:" ++ toString p.amount ++
    "|nonce:" ++ toString p.nonce ++ "|deadline:" ++ toString p.deadline

/-- Embedding of `verifySolanaPayment` (`solana/verify.ts`): Ed25519
signature, then deadline, then amount, then recipient (lower-cased
comparison), then SPL token balance. -/
def verifySolanaPayment (env : VerifyEnv) (p : PaymentPayload)
    (reqs : Requirements) : SolanaVerifyResult :=
  match env.eddsaVerify
      { message := constructMessage p
      , signature := p.signature
      , publicKey := p.fromAddr } with
  | .error _ => { isValid := false, invalidReason := some "Signature verification failed" }
  | .ok false => { isValid := false, invalidReason := some "Invalid signature" }
  | .ok true =>
    if env.now > p.deadline then
      { isValid := false, invalidReason := some "Payment expired" }
    else if p.amount < reqs.maxAmount then
      { isValid := false, invalidReason := some "Insufficient amount" }
    else if jsToLower p.toAddr ≠ jsToLower reqs.recipientAddress then
      { isValid := false, invalidReason := some "Invalid recipient" }
    else
      match env.getSolBalance p.fromAddr with
      | .error msg =>
        { isValid := false, invalidReason := some ("Balance check failed: " ++ msg) }
      | .ok b =>
        if b < p.amount then
          { isValid := false, invalidReason := some "Insufficient SBC balance" }
        else
          { isValid := true, invalidReason := none }

/-- Network classification, from the literal comparisons in
`routes/verify.ts` and `routes/settle.ts`. -/
def isBaseSepoliaNet (n : String) : Bool :=
  n = "base-sepolia" || n = "84532"

/-- Base mainnet name or decimal chain id. -/
def isBaseMainnetNet (n : String) : Bool :=
  n = "base" || n = "8453"

/-- Either Base network. -/
def isBaseNet (n : String) : Bool :=
  isBaseSepoliaNet n || isBaseMainnetNet n

/-- Radius testnet name or decimal chain id. -/
def isRadiusNet (n : String) : Bool :=
  n = "radius-testnet" || n = "1223953"

/-- Chain id selected by `verifyPayment` for the EVM networks. -/
def evmChainId (cfg : Config) (n : String) : Nat :=
  if isBaseSepoliaNet n then 84532
  else if isBaseMainnetNet n then cfg.baseChainId
  else cfg.radiusChainId

/-- Facilitator address selected by `verifyPayment` for the EVM networks. -/
def evmFacilitatorAddress (cfg : Config) (n : String) : String :=
  if isBaseSepoliaNet n then cfg.baseFacilitatorAddress
  else if isBaseMainnetNet n then cfg.baseFacilitatorAddress
  else cfg.radiusFacilitatorAddress

/-- RPC url selected for the EVM networks. -/
def evmRpcUrl (cfg : Config) (n : String) : String :=
  if isBaseSepoliaNet n then "https://sepolia.base.org"
  else if isBaseMainnetNet n then cfg.baseRpcUrl
  else cfg.radiusRpcUrl

/-- JavaScript truthiness of `payload.signedTransaction` (absent or empty
string is falsy). -/
def hasSignedTransaction (p : PaymentPayload) : Bool :=
  match p.signedTransaction with
  | none => false
  | some s => s != ""

/-- The `verifyTypedData` call built by the EIP-712 branch of
`verifyPayment`: signer `from`, domain bound to the facilitator address and
chain id of the proof's network, message `{from, to, amount, nonce,
deadline}`. -/
def evmSigQuery (cfg : Config) (pd : PaymentData) : TypedDataQuery :=
  { address := pd.payload.fromAddr
  , domain := getDomain (evmFacilitatorAddress cfg pd.network) (evmChainId cfg pd.network)
  , message :=
    { fromAddr := pd.payload.fromAddr
    , toAddr := pd.payload.toAddr
    , amount := pd.payload.amount
    , nonce := pd.payload.nonce
    , deadline := pd.payload.deadline }
  , signature := pd.payload.signature }

/-- Authorization section of `verifyPayment` (step 2): returns `some r` for
an early rejection and `none` when authorization passed.  A Radius payment
carrying a (truthy) `signedTransaction` is checked by parsing that
transaction; every other EVM payment goes through EIP-712 signature
verification. -/
def evmAuthCheck (cfg : Config) (env : VerifyEnv) (pd : PaymentData) :
    Option VerifyResult :=
  let p := pd.payload
  if isRadiusNet pd.network && hasSignedTransaction p then
    match p.signedTransaction with
    | none => none
    | some st =>
      match env.parseTransaction st with
      | none =>
        some { status := 200, isValid := false, payer := some p.fromAddr
             , invalidReason := some "Invalid signed transaction" }
      | some tx =>
        if (tx.toAddr.map jsToLower) ≠ some (jsToLower p.toAddr) then
          some { status := 200, isValid := false, payer := some p.fromAddr
               , invalidReason := some "Transaction recipient does not match claimed recipient" }
        else if tx.value ≠ p.amount then
          some { status := 200, isValid := false, payer := some p.fromAddr
               , invalidReason := some "Transaction amount does not match claimed amount" }
        else if tx.chainId ≠ 1223953 then
          some { status := 200, isValid := false, payer := some p.fromAddr
               , invalidReason := some "Transaction chain ID does not match Radius testnet" }
        else none
  else
    match env.verifyTypedData (evmSigQuery cfg pd) with
    | .error _ =>
      some { status := 200, isValid := false, payer := some p.fromAddr
           , invalidReason := some "Signature verification failed" }
    | .ok false =>
      some { status := 200, isValid := false, payer := some p.fromAddr
           , invalidReason := some "Invalid signature" }
    | .ok true => none

/-- Balance query issued by step 6 of `verifyPayment`: ERC-20 `balanceOf` on
the network's SBC token for Base, native balance for Radius. -/
def evmBalanceQuery (cfg : Config) (n : String) (addr : String) : BalanceQuery :=
  if isBaseNet n then
    { tokenAddress := some (if isBaseSepoliaNet n
        then "0xf9FB20B8E097904f0aB7d12e9DbeE88f2dcd0F16"
        else cfg.baseSbcTokenAddress)
    , rpcUrl := evmRpcUrl cfg n
    , address := addr }
  else
    { tokenAddress := none, rpcUrl := evmRpcUrl cfg n, address := addr }

/-- Steps 3 to 6 of `verifyPayment` (run after authorization passed):
deadline, then amount, then recipient (lower-cased comparison), then
on-chain balance; success reports the payer `from` with no reason.  A thrown
balance query lands in the catch block (HTTP 500). -/
def evmPostAuth (cfg : Config) (env : VerifyEnv) (pd : PaymentData)
    (reqs : Requirements) : VerifyResult :=
  let p := pd.payload
  if env.now > p.deadline then
    { status := 200, isValid := false, payer := some p.fromAddr
    , invalidReason := some "Payment expired" }
  else if p.amount < reqs.maxAmountRequired then
    { status := 200, isValid := false, payer := some p.fromAddr
    , invalidReason := some "Insufficient amount" }
  else if jsToLower p.toAddr ≠ jsToLower reqs.payTo then
    { status := 200, isValid := false, payer := some p.fromAddr
    , invalidReason := some "Invalid recipient" }
  else
    match env.getBalance (evmBalanceQuery cfg pd.network p.fromAddr) with
    | .error msg =>
      { status := 500, isValid := false, payer := some (orUnknown p.fromAddr)
      , invalidReason := some ("Server error: " ++ msg) }
    | .ok b =>
      if b < p.amount then
        { status := 200, isValid := false, payer := some p.fromAddr
        , invalidReason := some "Insufficient balance" }
      else
        { status := 200, isValid := true, payer := some p.fromAddr
        , invalidReason := none }

/-- Embedding of `verifyPayment` (`routes/verify.ts`).  The `decoded`
argument is the outcome of base64/JSON-decoding the payment header; on a
decode exception the catch block re-parses the same header (which fails
again), so the payer falls back to the sentinel `"unknown"` and the response
is a 500 with a `Server error:` reason. -/
def verifyPayment (cfg : Config) (env : VerifyEnv)
    (decoded : Except String PaymentData) (reqs : Requirements) : VerifyResult :=
  match decoded with
  | .error msg =>
    { status := 500, isValid := false, payer := some "unknown"
    , invalidReason := some ("Server error: " ++ msg) }
  | .ok pd =>
    if pd.scheme ≠ "exact" then
      { status := 200, isValid := false, payer := some (orUnknown pd.payload.fromAddr)
      , invalidReason := some ("Unsupported scheme: " ++ pd.scheme) }
    else if pd.network = "solana-mainnet-beta" then
      let r := verifySolanaPayment env pd.payload reqs
      { status := 200, isValid := r.isValid, payer := none, invalidReason := r.invalidReason }
    else if !(isBaseNet pd.network || isRadiusNet pd.network) then
      { status := 200, isValid := false, payer := some (orUnknown pd.payload.fromAddr)
      , invalidReason := some ("Unknown network: " ++ pd.network) }
    else
      match evmAuthCheck cfg env pd with
      | some r => r
      | none => evmPostAuth cfg env pd reqs

/-- The Bitcoin/Solana base58 alphabet used by `bs58`. -/
def base58Alphabet : List Char :=
  "123456789ABCDEFGHJKLMNPQRSTUVWXYZabcdefghijkmnopqrstuvwxyz".toList

/-- Digit lookup in the base58 alphabet. -/
def base58Digit (n : Nat) : Char :=
  base58Alphabet.getD n '1'

/-- Little-endian base58 digits of a natural number, with explicit fuel so
the definition is structurally recursive (the fuel `n` dominates the digit
count). -/
def natToBase58Aux : Nat → Nat → List Char
  | 0, _ => []
  | fuel + 1, n =>
    if n = 0 then []
    else base58Digit (n % 58) :: natToBase58Aux fuel (n / 58)

/-- Little-endian base58 digits of a natural number. -/
def natToBase58 (n : Nat) : List Char :=
  natToBase58Aux n n

/-- Big-endian byte list read as a natural number. -/
def bytesToNat (bs : List Nat) : Nat :=
  bs.foldl (fun acc b => acc * 256 + b) 0

/-- The `bs58.encode` function: leading zero bytes map to leading `1`
characters, the rest is the big-endian base58 numeral. -/
def bs58Encode (bs : List Nat) : String :=
  String.mk (List.replicate (bs.takeWhile (· == 0)).length '1' ++
    (natToBase58 (bytesToNat bs)).reverse)

/-- Settlement response.  `status` is the HTTP status; success responses
omit `errorReason` (modelled as `none`). -/
structure SettleResult where
  status : Nat
  success : Bool
  payer : String
  transaction : String
  network : String
  errorReason : Option String
deriving DecidableEq

/-- Observable side effects of a settlement call: whether an EVM signing key
was loaded (`privateKeyToAccount`), whether the Solana signing key was loaded
(`Keypair.fromSecretKey`), and how many ledger RPC round trips were made. -/
structure SettleEffects where
  evmKeyLoaded : Bool
  solanaKeyLoaded : Bool
  networkCalls : Nat
deriving DecidableEq

/-- No side effects. -/
def noEffects : SettleEffects :=
  { evmKeyLoaded := false, solanaKeyLoaded := false, networkCalls := 0 }

/-- Environment for settlement: the real-settlement feature flag, the outcome
of each external call, and the random values consumed in simulated mode
(`randFrags` are the four `Math.random().toString(16).slice(2)` fragments,
`randBytes` the 64 random bytes of the simulated Solana signature). -/
structure SettleEnv where
  useRealSettlement : Bool
  privateKeyToAccount : String → Except String Unit
  writeContract : Except String String
  sendRawTransaction : Except String String
  waitForTransactionReceipt : Except String Unit
  randFrags : Fin 4 → String
  parseSolanaKey : String → Except String Unit
  getLatestBlockhash : Except String Unit
  sendAndConfirmTransaction : Except String String
  randBytes : List Nat

/-- The simulated EVM transaction hash of `routes/settle.ts`:
`0x` followed by four `Math.random().toString(16).slice(2)` fragments. -/
def evmSimulatedTxHash (frags : Fin 4 → String) : String :=
  "0x" ++ frags 0 ++ frags 1 ++ frags 2 ++ frags 3

/-- Embedding of `settleSolanaPayment` (`solana/settle.ts`).  The missing-key
guard throws before the key bytes are ever decoded; all throws land in the
function's own catch block, which reports `success:false` with the message as
`errorReason` (HTTP 200, since the route simply serialises the result). -/
def settleSolanaPayment (cfg : Config) (env : SettleEnv) (p : PaymentPayload) :
    SettleResult × SettleEffects :=
  if cfg.solanaFacilitatorPrivateKey = "" then
    ( { status := 200, success := false, payer := orUnknown p.fromAddr
      , transaction := "", network := "solana-mainnet-beta"
      , errorReason := some "SOLANA_FACILITATOR_PRIVATE_KEY not configured" }
    , noEffects )
  else
    match env.parseSolanaKey cfg.solanaFacilitatorPrivateKey with
    | .error msg =>
      ( { status := 200, success := false, payer := orUnknown p.fromAddr
        , transaction := "", network := "solana-mainnet-beta", errorReason := some msg }
      , { evmKeyLoaded := false, solanaKeyLoaded := true, networkCalls := 0 } )
    | .ok _ =>
      if env.useRealSettlement then
        match env.getLatestBlockhash with
        | .error msg =>
          ( { status := 200, success := false, payer := orUnknown p.fromAddr
            , transaction := "", network := "solana-mainnet-beta", errorReason := some msg }
          , { evmKeyLoaded := false, solanaKeyLoaded := true, networkCalls := 1 } )
        | .ok _ =>
          match env.sendAndConfirmTransaction with
          | .error msg =>
            ( { status := 200, success := false, payer := orUnknown p.fromAddr
              , transaction := "", network := "solana-mainnet-beta", errorReason := some msg }
            , { evmKeyLoaded := false, solanaKeyLoaded := true, networkCalls := 2 } )
          | .ok sig =>
            ( { status := 200, success := true, payer := p.fromAddr
              , transaction := sig, network := "solana-mainnet-beta", errorReason := none }
            , { evmKeyLoaded := false, solanaKeyLoaded := true, networkCalls := 2 } )
      else
        ( { status := 200, success := true, payer := p.fromAddr
          , transaction := bs58Encode env.randBytes
          , network := "solana-mainnet-beta", errorReason := none }
        , { evmKeyLoaded := false, solanaKeyLoaded := true, networkCalls := 0 } )

/-- Embedding of `settlePayment` (`routes/settle.ts`).  Scheme check, then
network routing (Solana delegated transfer, Base ERC-20 `transferFrom`,
Radius pre-signed broadcast), then real or simulated execution.  The EVM
branch loads the configured facilitator private key with
`privateKeyToAccount` before consulting the feature flag; any throw reaches
the catch block, which re-parses the header for `payer`/`network` and answers
HTTP 500. -/
def settlePayment (cfg : Config) (env : SettleEnv)
    (decoded : Except String PaymentData) : SettleResult × SettleEffects :=
  match decoded with
  | .error msg =>
    ( { status := 500, success := false, payer := "unknown", transaction := ""
      , network := "unknown", errorReason := some msg }
    , noEffects )
  | .ok pd =>
    if pd.scheme ≠ "exact" then
      ( { status := 200, success := false, payer := orUnknown pd.payload.fromAddr
        , transaction := "", network := orUnknown pd.network
        , errorReason := some ("Unsupported scheme: " ++ pd.scheme) }
      , noEffects )
    else if pd.network = "solana-mainnet-beta" then
      settleSolanaPayment cfg env pd.payload
    else if !(isBaseNet pd.network || isRadiusNet pd.network) then
      ( { status := 200, success := false, payer := orUnknown pd.payload.fromAddr
        , transaction := "", network := orUnknown pd.network
        , errorReason := some ("Unknown network: " ++ pd.network) }
      , noEffects )
    else
      let p := pd.payload
      let key := if isBaseNet pd.network then cfg.baseFacilitatorPrivateKey
                 else cfg.radiusFacilitatorPrivateKey
      match env.privateKeyToAccount key with
      | .error msg =>
        ( { status := 500, success := false, payer := orUnknown p.fromAddr
          , transaction := "", network := orUnknown pd.network, errorReason := some msg }
        , { evmKeyLoaded := true, solanaKeyLoaded := false, networkCalls := 0 } )
      | .ok _ =>
        if env.useRealSettlement then
          if isBaseNet pd.network then
            match env.writeContract with
            | .error msg =>
              ( { status := 500, success := false, payer := orUnknown p.fromAddr
                , transaction := "", network := orUnknown pd.network, errorReason := some msg }
              , { evmKeyLoaded := true, solanaKeyLoaded := false, networkCalls := 1 } )
            | .ok h =>
              match env.waitForTransactionReceipt with
              | .error msg =>
                ( { status := 500, success := false, payer := orUnknown p.fromAddr
                  , transaction := "", network := orUnknown pd.network, errorReason := some msg }
                , { evmKeyLoaded := true, solanaKeyLoaded := false, networkCalls := 2 } )
              | .ok _ =>
                ( { status := 200, success := true, payer := p.fromAddr
                  , transaction := h, network := pd.network, errorReason := none }
                , { evmKeyLoaded := true, solanaKeyLoaded := false, networkCalls := 2 } )
          else
            if !hasSignedTransaction p then
              ( { status := 500, success := false, payer := orUnknown p.fromAddr
                , transaction := "", network := orUnknown pd.network
                , errorReason := some "No signed transaction provided for Radius payment. Agent must sign the native token transfer." }
              , { evmKeyLoaded := true, solanaKeyLoaded := false, networkCalls := 0 } )
            else
              match env.sendRawTransaction with
              | .error msg =>
                ( { status := 500, success := false, payer := orUnknown p.fromAddr
                  , transaction := "", network := orUnknown pd.network, errorReason := some msg }
                , { evmKeyLoaded := true, solanaKeyLoaded := false, networkCalls := 1 } )
              | .ok h =>
                match env.waitForTransactionReceipt with
                | .error msg =>
                  ( { status := 500, success := false, payer := orUnknown p.fromAddr
                    , transaction := "", network := orUnknown pd.network, errorReason := some msg }
                  , { evmKeyLoaded := true, solanaKeyLoaded := false, networkCalls := 2 } )
                | .ok _ =>
                  ( { status := 200, success := true, payer := p.fromAddr
                    , transaction := h, network := pd.network, errorReason := none }
                  , { evmKeyLoaded := true, solanaKeyLoaded := false, networkCalls := 2 } )
        else
          ( { status := 200, success := true, payer := p.fromAddr
            , transaction := evmSimulatedTxHash env.randFrags
            , network := pd.network, errorReason := none }
          , { evmKeyLoaded := true, solanaKeyLoaded := false, networkCalls := 0 } )

/-- One supported payment kind of the discovery endpoint. -/
structure Kind where
  x402Version : Nat
  scheme : String
  network : String
deriving DecidableEq

/-- Embedding of `getSupportedNetworks` (`routes/supported.ts`): each network
family is listed exactly when its configured pair of credentials is
non-empty; the Base entry is named after the configured chain id. -/
def getSupportedNetworks (cfg : Config) : List Kind :=
  (if cfg.radiusMerchantAddress ≠ "" ∧ cfg.radiusFacilitatorPrivateKey ≠ "" then
    [{ x402Version := 1, scheme := "exact", network := "radius-testnet" }] else [])
  ++ (if cfg.baseFacilitatorAddress ≠ "" ∧ cfg.baseFacilitatorPrivateKey ≠ "" then
    [{ x402Version := 1, scheme := "exact"
     , network := if cfg.baseChainId = 8453 then "base" else "base-sepolia" }] else [])
  ++ (if cfg.solanaFacilitatorAddress ≠ "" ∧ cfg.solanaFacilitatorPrivateKey ≠ "" then
    [{ x402Version := 1, scheme := "exact", network := "solana-mainnet-beta" }] else [])

/-- Signing key configured for a ledger name, read off `config.ts` through
the same chain-id naming rule `getSupportedNetworks` uses: the single Base
configuration names the ledger `base` when `baseChainId = 8453` and
`base-sepolia` otherwise, so the other Base name has no configuration. -/
def ledgerSigningKey (cfg : Config) (ledger : String) : String :=
  if ledger = "radius-testnet" then cfg.radiusFacilitatorPrivateKey
  else if ledger = "base" then
    (if cfg.baseChainId = 8453 then cfg.baseFacilitatorPrivateKey else "")
  else if ledger = "base-sepolia" then
    (if cfg.baseChainId = 8453 then "" else cfg.baseFacilitatorPrivateKey)
  else if ledger = "solana-mainnet-beta" then cfg.solanaFacilitatorPrivateKey
  else ""

/-- Companion identity `getSupportedNetworks` requires next to the signing
key: the merchant address for Radius, the facilitator address for Base and
Solana (the code checks no merchant identity for those two). -/
def ledgerCounterpartyIdentity (cfg : Config) (ledger : String) : String :=
  if ledger = "radius-testnet" then cfg.radiusMerchantAddress
  else if ledger = "base" then
    (if cfg.baseChainId = 8453 then cfg.baseFacilitatorAddress else "")
  else if ledger = "base-sepolia" then
    (if cfg.baseChainId = 8453 then "" else cfg.baseFacilitatorAddress)
  else if ledger = "solana-mainnet-beta" then cfg.solanaFacilitatorAddress
  else ""

/-- Modelled from the spec: the reference format of a real EVM settlement.
Real references are transaction hashes returned by the ledger RPC (outside
`src/`): a `0x`-prefixed 32-byte hash, i.e. 66 characters of lower-case
hex. -/
def evmTxHashFormat (s : String) : Prop :=
  s.length = 66 ∧ s.toList.take 2 = ['0', 'x'] ∧
    ∀ c ∈ s.toList.drop 2, c ∈ "0123456789abcdef".toList

/-- Modelled from the spec: the reference format of a real Solana settlement.
Real references are transaction signatures returned by the ledger (outside
`src/`): the base58 encoding of a 64-byte Ed25519 signature. -/
def solanaSignatureFormat (s : String) : Prop :=
  ∃ bs : List Nat, bs.length = 64 ∧ (∀ b ∈ bs, b < 256) ∧ s = bs58Encode bs

/-- Decidable equality for `Except`, so concrete oracle outcomes can be
checked by `decide`. -/
instance {α β : Type} [DecidableEq α] [DecidableEq β] :
    DecidableEq (Except α β) := fun x y =>
  match x, y with
  | .error a, .error b =>
    if h : a = b then .isTrue (by rw [h])
    else .isFalse (by intro hc; cases hc; exact h rfl)
  | .error _, .ok _ => .isFalse (by intro hc; cases hc)
  | .ok _, .error _ => .isFalse (by intro hc; cases hc)
  | .ok a, .ok b =>
    if h : a = b then .isTrue (by rw [h])
    else .isFalse (by intro hc; cases hc; exact h rfl)

/-- The four strings classified as a Base network. -/
theorem baseNet_cases {n : String} (h : isBaseNet n = true) :
    n = "base-sepolia" ∨ n = "84532" ∨ n = "base" ∨ n = "8453" := by
  simp only [isBaseNet, isBaseSepoliaNet, isBaseMainnetNet, Bool.or_eq_true,
    decide_eq_true_eq] at h
  tauto

/-- The two strings classified as the Radius network. -/
theorem radiusNet_cases {n : String} (h : isRadiusNet n = true) :
    n = "radius-testnet" ∨ n = "1223953" := by
  simp only [isRadiusNet, Bool.or_eq_true, decide_eq_true_eq] at h
  exact h

/-! Sample concrete inputs, used by witnesses and counterexamples. -/

/-- Sample fully configured facilitator configuration. -/
def sampleCfg : Config :=
  { radiusRpcUrl := "https://rpc.testnet.radius"
  , radiusFacilitatorPrivateKey := "0xRadiusKey"
  , radiusFacilitatorAddress := "0xRadiusFacilitator"
  , radiusMerchantAddress := "0xRadiusMerchant"
  , radiusChainId := 1223953
  , baseRpcUrl := "https://mainnet.base.org"
  , baseFacilitatorPrivateKey := "0xBaseKey"
  , baseFacilitatorAddress := "0xBaseFacilitator"
  , baseChainId := 8453
  , baseSbcTokenAddress := "0xSbcToken"
  , baseSbcDecimals := 18
  , solanaRpcUrl := "https://api.mainnet-beta.solana.com"
  , solanaFacilitatorPrivateKey := "SolanaKey"
  , solanaFacilitatorAddress := "SolanaFacilitator"
  , solanaMerchantAddress := "SolanaMerchant"
  , sbcTokenAddress := "SbcMint" }

/-- Sample payment payload. -/
def samplePayload : PaymentPayload :=
  { fromAddr := "0xAaaa"
  , toAddr := "0xBbbb"
  , amount := 50
  , nonce := 7
  , deadline := 1000
  , signature := "0xSig"
  , signedTransaction := none }

/-- Sample requirements matching `samplePayload`. -/
def sampleReqs : Requirements :=
  { maxAmountRequired := 10
  , payTo := "0xBbbb"
  , maxAmount := 10
  , recipientAddress := "0xBbbb" }

/-- Sample verify environment: all oracles succeed, balance is ample. -/
def sampleVerifyEnv : VerifyEnv :=
  { now := 500
  , verifyTypedData := fun _ => .ok true
  , parseTransaction := fun _ => none
  , getBalance := fun _ => .ok 1000000
  , eddsaVerify := fun _ => .ok true
  , getSolBalance := fun _ => .ok 1000000 }

/-- Sample settle environment in simulated mode. -/
def sampleSettleEnv : SettleEnv :=
  { useRealSettlement := false
  , privateKeyToAccount := fun _ => .ok ()
  , writeContract := .ok "0xWriteHash"
  , sendRawTransaction := .ok "0xRawHash"
  , waitForTransactionReceipt := .ok ()
  , randFrags := fun _ => "abc123"
  , parseSolanaKey := fun _ => .ok ()
  , getLatestBlockhash := .ok ()
  , sendAndConfirmTransaction := .ok "RealSignature"
  , randBytes := List.replicate 64 0 }

/-! General helper lemmas. -/

/-- A substring of `s` is a substring of `s ++ t`. -/
theorem containsStr_append_left (sub s t : String)
    (h : containsStr sub s = true) : containsStr sub (s ++ t) = true := by
  simp only [containsStr, String.toList, decide_eq_true_eq] at h ⊢
  rw [String.data_append]
  obtain ⟨u, v, huv⟩ := h
  exact ⟨u, v ++ t.data, by rw [← huv]; simp⟩

/-- An EVM-classified network is not the Solana network. -/
theorem not_solana_of_evm {n : String}
    (h : (isBaseNet n || isRadiusNet n) = true) : n ≠ "solana-mainnet-beta" := by
  rintro rfl
  exact absurd h (by decide)

/-- On an EVM network with scheme `exact`, `verifyPayment` is the
authorization check followed by the invariant pipeline. -/
theorem verifyPayment_evm (cfg : Config) (env : VerifyEnv) (pd : PaymentData)
    (reqs : Requirements) (hs : pd.scheme = "exact")
    (hn : (isBaseNet pd.network || isRadiusNet pd.network) = true) :
    verifyPayment cfg env (.ok pd) reqs =
      match evmAuthCheck cfg env pd with
      | some r => r
      | none => evmPostAuth cfg env pd reqs := by
  have hsol := not_solana_of_evm hn
  simp [verifyPayment, hs, hsol, hn]

/-- C8: a verify or settle call whose payment header fails to decode is
answered with a well-formed HTTP-500 result object (never a bare exception):
`isValid`/`success` is `false`, the payer is recovered by best-effort
re-parsing of the same header, which fails again, so it is the sentinel
`"unknown"`, and the reason carries the exception text. -/
theorem c8_decode_failure_internal_error :
    ∀ (cfg : Config) (venv : VerifyEnv) (senv : SettleEnv)
      (reqs : Requirements) (msg : String),
      verifyPayment cfg venv (.error msg) reqs =
        { status := 500, isValid := false, payer := some "unknown"
        , invalidReason := some ("Server error: " ++ msg) } ∧
      settlePayment cfg senv (.error msg) =
        ( { status := 500, success := false, payer := "unknown", transaction := ""
          , network := "unknown", errorReason := some msg }
        , noEffects ) :=
  fun _ _ _ _ _ => ⟨rfl, rfl⟩

/-- C9: the Solana recipient check lower-cases both base58 addresses before
comparing, so any payload whose `to` differs from the required recipient only
in letter case passes the recipient check (base58 is case-sensitive, so two
distinct addresses can satisfy the hypothesis). -/
theorem c9_solana_recipient_case_insensitive :
    ∀ (env : VerifyEnv) (p : PaymentPayload) (reqs : Requirements),
      jsToLower p.toAddr = jsToLower reqs.recipientAddress →
      (verifySolanaPayment env p reqs).invalidReason ≠ some "Invalid recipient" := by
  intro env p reqs h
  simp only [verifySolanaPayment]
  cases env.eddsaVerify
      { message := constructMessage p
      , signature := p.signature
      , publicKey := p.fromAddr } with
  | error e => simp
  | ok b =>
    cases b with
    | false => simp
    | true =>
      simp only [h, ne_eq, not_true_eq_false, if_false]
      split_ifs with h1 h2
      · simp
      · simp
      · cases hb : env.getSolBalance p.fromAddr with
        | error msg =>
          simp only [ne_eq, Option.some.injEq]
          intro hc
          have hlen := congrArg String.length hc
          rw [String.length_append] at hlen
          have hl1 : ("Balance check failed: " : String).length = 22 := rfl
          have hl2 : ("Invalid recipient" : String).length = 17 := rfl
          omega
        | ok bal =>
          by_cases hba : bal < p.amount <;> simp [hba]

/-- C9 witness: two base58 addresses that are distinct but agree up to case
pass the recipient check; the sample verification succeeds outright. -/
theorem c9_witness :
    ("AbCd" : String) ≠ "aBcD" ∧
    jsToLower "AbCd" = jsToLower "aBcD" ∧
    (verifySolanaPayment sampleVerifyEnv
        { samplePayload with toAddr := "AbCd" }
        { sampleReqs with recipientAddress := "aBcD" }).invalidReason ≠
      some "Invalid recipient" ∧
    verifySolanaPayment sampleVerifyEnv
        { samplePayload with toAddr := "AbCd" }
        { sampleReqs with recipientAddress := "aBcD" } =
      { isValid := true, invalidReason := none } :=
  ⟨by decide, by decide
  , c9_solana_recipient_case_insensitive sampleVerifyEnv
      { samplePayload with toAddr := "AbCd" }
      { sampleReqs with recipientAddress := "aBcD" } (by decide)
  , by decide⟩

/-- C7: discovery lists a `(scheme = "exact", ledger)` kind exactly when both
the ledger's facilitator signing key and its companion counterparty identity
are configured (Radius: merchant address; Base and Solana: the facilitator
address, with the single Base configuration named after its chain id); in
particular a ledger with no signing key configured never appears. -/
theorem c7_discovery_reflects_config :
    (∀ (cfg : Config) (k : Kind),
      k ∈ getSupportedNetworks cfg ↔
        k.x402Version = 1 ∧ k.scheme = "exact" ∧
        ledgerSigningKey cfg k.network ≠ "" ∧
        ledgerCounterpartyIdentity cfg k.network ≠ "") ∧
    (∀ (cfg : Config) (k : Kind),
      k ∈ getSupportedNetworks cfg → ledgerSigningKey cfg k.network ≠ "") := by
  have main : ∀ (cfg : Config) (k : Kind),
      k ∈ getSupportedNetworks cfg ↔
        k.x402Version = 1 ∧ k.scheme = "exact" ∧
        ledgerSigningKey cfg k.network ≠ "" ∧
        ledgerCounterpartyIdentity cfg k.network ≠ "" := by
    intro cfg k
    constructor
    · intro hk
      simp only [getSupportedNetworks, List.mem_append] at hk
      rcases hk with (hk | hk) | hk
      · split at hk
        case isTrue hc =>
          simp only [List.mem_singleton] at hk
          subst hk
          exact ⟨rfl, rfl, by simpa [ledgerSigningKey] using hc.2,
            by simpa [ledgerCounterpartyIdentity] using hc.1⟩
        case isFalse => simp at hk
      · split at hk
        case isTrue hc =>
          simp only [List.mem_singleton] at hk
          subst hk
          by_cases hid : cfg.baseChainId = 8453
          · exact ⟨rfl, rfl, by simpa [ledgerSigningKey, hid] using hc.2,
              by simpa [ledgerCounterpartyIdentity, hid] using hc.1⟩
          · exact ⟨rfl, rfl, by simpa [ledgerSigningKey, hid] using hc.2,
              by simpa [ledgerCounterpartyIdentity, hid] using hc.1⟩
        case isFalse => simp at hk
      · split at hk
        case isTrue hc =>
          simp only [List.mem_singleton] at hk
          subst hk
          exact ⟨rfl, rfl, by simpa [ledgerSigningKey] using hc.2,
            by simpa [ledgerCounterpartyIdentity] using hc.1⟩
        case isFalse => simp at hk
    · rintro ⟨h1, h2, h3, h4⟩
      obtain ⟨v, s, n⟩ := k
      simp only at h1 h2 h3 h4
      subst h1
      subst h2
      by_cases hn1 : n = "radius-testnet"
      · subst hn1
        simp [ledgerSigningKey] at h3
        simp [ledgerCounterpartyIdentity] at h4
        simp [getSupportedNetworks, h3, h4]
      · by_cases hn2 : n = "base"
        · subst hn2
          simp [ledgerSigningKey] at h3
          simp [ledgerCounterpartyIdentity] at h4
          simp [getSupportedNetworks, h3.1, h3.2, h4.2]
        · by_cases hn3 : n = "base-sepolia"
          · subst hn3
            simp [ledgerSigningKey] at h3
            simp [ledgerCounterpartyIdentity] at h4
            simp [getSupportedNetworks, h3.1, h3.2, h4.2]
          · by_cases hn4 : n = "solana-mainnet-beta"
            · subst hn4
              simp [ledgerSigningKey] at h3
              simp [ledgerCounterpartyIdentity] at h4
              simp [getSupportedNetworks, h3, h4]
            · simp [ledgerSigningKey, hn1, hn2, hn3, hn4] at h3
  exact ⟨main, fun cfg k hk => (((main cfg k).1 hk).2.2.1)⟩

/-- C7 witness: in the fully configured sample, the Radius kind is listed
and its signing key is configured. -/
theorem c7_witness :
    (⟨1, "exact", "radius-testnet"⟩ : Kind) ∈ getSupportedNetworks sampleCfg ∧
    ledgerSigningKey sampleCfg "radius-testnet" ≠ "" :=
  ⟨by decide
  , c7_discovery_reflects_config.2 sampleCfg ⟨1, "exact", "radius-testnet"⟩ (by decide)⟩

/-- Sample Base-mainnet payment header. -/
def basePaymentData : PaymentData :=
  { scheme := "exact", network := "base", payload := samplePayload }

/-- C4: after authorization, the invariant checks run strictly in the order
deadline, amount, recipient, short-circuiting on the first violation, and the
reported `invalidReason` is determined by that first violation: `Payment
expired` when `now > deadline`, `Insufficient amount` when the amount is
below the requirement, `Invalid recipient` when the lower-cased payee
differs; the reasons contain "expired", "amount" and "recipient"
respectively.  This holds on the EVM path and on the Solana path. -/
theorem c4_invariant_check_order :
    (∀ (cfg : Config) (env : VerifyEnv) (pd : PaymentData) (reqs : Requirements),
      pd.scheme = "exact" →
      (isBaseNet pd.network || isRadiusNet pd.network) = true →
      evmAuthCheck cfg env pd = none →
      ((env.now > pd.payload.deadline →
        (verifyPayment cfg env (.ok pd) reqs).invalidReason = some "Payment expired") ∧
       (env.now ≤ pd.payload.deadline →
        pd.payload.amount < reqs.maxAmountRequired →
        (verifyPayment cfg env (.ok pd) reqs).invalidReason = some "Insufficient amount") ∧
       (env.now ≤ pd.payload.deadline →
        reqs.maxAmountRequired ≤ pd.payload.amount →
        jsToLower pd.payload.toAddr ≠ jsToLower reqs.payTo →
        (verifyPayment cfg env (.ok pd) reqs).invalidReason = some "Invalid recipient"))) ∧
    (∀ (env : VerifyEnv) (p : PaymentPayload) (reqs : Requirements),
      env.eddsaVerify
          { message := constructMessage p
          , signature := p.signature
          , publicKey := p.fromAddr } = .ok true →
      ((env.now > p.deadline →
        (verifySolanaPayment env p reqs).invalidReason = some "Payment expired") ∧
       (env.now ≤ p.deadline → p.amount < reqs.maxAmount →
        (verifySolanaPayment env p reqs).invalidReason = some "Insufficient amount") ∧
       (env.now ≤ p.deadline → reqs.maxAmount ≤ p.amount →
        jsToLower p.toAddr ≠ jsToLower reqs.recipientAddress →
        (verifySolanaPayment env p reqs).invalidReason = some "Invalid recipient"))) ∧
    (containsStr "expired" "Payment expired" = true ∧
     containsStr "amount" "Insufficient amount" = true ∧
     containsStr "recipient" "Invalid recipient" = true) := by
  refine ⟨?_, ?_, by decide, by decide, by decide⟩
  · intro cfg env pd reqs hs hn hauth
    rw [verifyPayment_evm cfg env pd reqs hs hn, hauth]
    refine ⟨?_, ?_, ?_⟩
    · intro hd
      simp [evmPostAuth, hd]
    · intro hd ha
      have hd' : ¬env.now > pd.payload.deadline := by omega
      simp [evmPostAuth, hd', ha]
    · intro hd ha hr
      have hd' : ¬env.now > pd.payload.deadline := by omega
      have ha' : ¬pd.payload.amount < reqs.maxAmountRequired := by omega
      simp [evmPostAuth, hd', ha', hr]
  · intro env p reqs hsig
    refine ⟨?_, ?_, ?_⟩
    · intro hd
      simp [verifySolanaPayment, hsig, hd]
    · intro hd ha
      have hd' : ¬env.now > p.deadline := by omega
      simp [verifySolanaPayment, hsig, hd', ha]
    · intro hd ha hr
      have hd' : ¬env.now > p.deadline := by omega
      have ha' : ¬p.amount < reqs.maxAmount := by omega
      simp [verifySolanaPayment, hsig, hd', ha', hr]

/-- C4 witness: an expired sample proof reports `Payment expired`. -/
theorem c4_witness :
    (verifyPayment sampleCfg { sampleVerifyEnv with now := 2000 }
      (.ok basePaymentData) sampleReqs).invalidReason = some "Payment expired" :=
  ((c4_invariant_check_order.1 sampleCfg { sampleVerifyEnv with now := 2000 }
    basePaymentData sampleReqs rfl (by decide) (by decide)).1 (by decide))

/-- Sample environment whose balance oracle reports a zero balance. -/
def lowBalanceEnv : VerifyEnv :=
  { sampleVerifyEnv with getBalance := fun _ => .ok 0 }

/-- C5 counterexample: a proof with a valid signature, unexpired deadline,
sufficient amount and matching payee is nevertheless rejected when the payer
balance is below the amount — the claim omits the balance-oracle check, so
as stated it is false. -/
theorem c5_counterexample :
    lowBalanceEnv.now ≤ basePaymentData.payload.deadline ∧
    sampleReqs.maxAmountRequired ≤ basePaymentData.payload.amount ∧
    jsToLower basePaymentData.payload.toAddr = jsToLower sampleReqs.payTo ∧
    lowBalanceEnv.verifyTypedData (evmSigQuery sampleCfg basePaymentData) = .ok true ∧
    (verifyPayment sampleCfg lowBalanceEnv (.ok basePaymentData) sampleReqs).isValid = false ∧
    (verifyPayment sampleCfg lowBalanceEnv (.ok basePaymentData) sampleReqs).invalidReason =
      some "Insufficient balance" := by
  decide

/-- C5 (amended): with a passing authorization check, unexpired deadline,
sufficient amount, matching payee AND a balance at least the amount, the EVM
path returns `isValid = true` with payer equal to the payload's `from`; the
Solana path likewise returns `isValid = true`, but its result — which the
route returns verbatim — carries no payer field at all. -/
theorem c5_amended_valid_proof_accepted :
    (∀ (cfg : Config) (env : VerifyEnv) (pd : PaymentData) (reqs : Requirements) (b : Nat),
      pd.scheme = "exact" →
      (isBaseNet pd.network || isRadiusNet pd.network) = true →
      evmAuthCheck cfg env pd = none →
      env.now ≤ pd.payload.deadline →
      reqs.maxAmountRequired ≤ pd.payload.amount →
      jsToLower pd.payload.toAddr = jsToLower reqs.payTo →
      env.getBalance (evmBalanceQuery cfg pd.network pd.payload.fromAddr) = .ok b →
      pd.payload.amount ≤ b →
      verifyPayment cfg env (.ok pd) reqs =
        { status := 200, isValid := true, payer := some pd.payload.fromAddr
        , invalidReason := none }) ∧
    (∀ (env : VerifyEnv) (p : PaymentPayload) (reqs : Requirements) (b : Nat),
      env.eddsaVerify
          { message := constructMessage p
          , signature := p.signature
          , publicKey := p.fromAddr } = .ok true →
      env.now ≤ p.deadline →
      reqs.maxAmount ≤ p.amount →
      jsToLower p.toAddr = jsToLower reqs.recipientAddress →
      env.getSolBalance p.fromAddr = .ok b →
      p.amount ≤ b →
      verifySolanaPayment env p reqs = { isValid := true, invalidReason := none }) ∧
    (∀ (cfg : Config) (env : VerifyEnv) (pd : PaymentData) (reqs : Requirements),
      pd.scheme = "exact" → pd.network = "solana-mainnet-beta" →
      verifyPayment cfg env (.ok pd) reqs =
        { status := 200
        , isValid := (verifySolanaPayment env pd.payload reqs).isValid
        , payer := none
        , invalidReason := (verifySolanaPayment env pd.payload reqs).invalidReason }) := by
  refine ⟨?_, ?_, ?_⟩
  · intro cfg env pd reqs b hs hn hauth hd ha hr hb hba
    rw [verifyPayment_evm cfg env pd reqs hs hn, hauth]
    have hd' : ¬env.now > pd.payload.deadline := by omega
    have ha' : ¬pd.payload.amount < reqs.maxAmountRequired := by omega
    have hba' : ¬b < pd.payload.amount := by omega
    simp [evmPostAuth, hd', ha', hr, hb, hba']
  · intro env p reqs b hsig hd ha hr hb hba
    have hd' : ¬env.now > p.deadline := by omega
    have ha' : ¬p.amount < reqs.maxAmount := by omega
    have hba' : ¬b < p.amount := by omega
    simp [verifySolanaPayment, hsig, hd', ha', hr, hb, hba']
  · intro cfg env pd reqs hs hn
    simp [verifyPayment, hs, hn]

/-- C5 witness: the fully valid sample proof with ample balance is accepted
with payer `0xAaaa`. -/
theorem c5_witness :
    verifyPayment sampleCfg sampleVerifyEnv (.ok basePaymentData) sampleReqs =
      { status := 200, isValid := true, payer := some "0xAaaa"
      , invalidReason := none } :=
  c5_amended_valid_proof_accepted.1 sampleCfg sampleVerifyEnv basePaymentData
    sampleReqs 1000000 rfl (by decide) (by decide) (by decide) (by decide)
    (by decide) (by decide) (by decide)

/-- C6: the EIP-712 domain handed to typed-data verification is bound to the
facilitator's own configured address for the proof's ledger (Base networks:
`baseFacilitatorAddress`; Radius: `radiusFacilitatorAddress`), never to the
payee — it is invariant under changing the payload's `to` — and a proof is
accepted only if the oracle authenticates the payer `from` over the
canonical `{from, to, amount, nonce, deadline}` message under that domain. -/
theorem c6_domain_binds_facilitator :
    ∀ (cfg : Config) (env : VerifyEnv) (pd : PaymentData) (reqs : Requirements),
      pd.scheme = "exact" →
      (isBaseNet pd.network || isRadiusNet pd.network) = true →
      ¬(isRadiusNet pd.network = true ∧ hasSignedTransaction pd.payload = true) →
      ((evmSigQuery cfg pd).domain =
        getDomain (evmFacilitatorAddress cfg pd.network) (evmChainId cfg pd.network) ∧
       (isBaseNet pd.network = true →
        (evmSigQuery cfg pd).domain.verifyingContract = cfg.baseFacilitatorAddress) ∧
       (isRadiusNet pd.network = true →
        (evmSigQuery cfg pd).domain.verifyingContract = cfg.radiusFacilitatorAddress) ∧
       (∀ t : String,
        (evmSigQuery cfg { pd with payload := { pd.payload with toAddr := t } }).domain =
          (evmSigQuery cfg pd).domain) ∧
       (evmSigQuery cfg pd).address = pd.payload.fromAddr ∧
       (evmSigQuery cfg pd).message =
         { fromAddr := pd.payload.fromAddr, toAddr := pd.payload.toAddr
         , amount := pd.payload.amount, nonce := pd.payload.nonce
         , deadline := pd.payload.deadline } ∧
       ((verifyPayment cfg env (.ok pd) reqs).isValid = true →
        env.verifyTypedData (evmSigQuery cfg pd) = .ok true)) := by
  intro cfg env pd reqs hs hn hnot
  have hand : (isRadiusNet pd.network && hasSignedTransaction pd.payload) = false := by
    rcases hr : isRadiusNet pd.network with _ | _
    · simp
    · rcases hst : hasSignedTransaction pd.payload with _ | _
      · simp
      · exact absurd ⟨hr, hst⟩ hnot
  refine ⟨rfl, ?_, ?_, fun t => rfl, rfl, rfl, ?_⟩
  · intro hb
    rcases baseNet_cases hb with h | h | h | h <;>
      · simp only [evmSigQuery, getDomain]
        rw [h]
        simp [evmFacilitatorAddress, isBaseSepoliaNet, isBaseMainnetNet]
  · intro hr
    rcases radiusNet_cases hr with h | h <;>
      · simp only [evmSigQuery, getDomain]
        rw [h]
        simp [evmFacilitatorAddress, isBaseSepoliaNet, isBaseMainnetNet]
  · intro hvalid
    rw [verifyPayment_evm cfg env pd reqs hs hn] at hvalid
    rcases hq : env.verifyTypedData (evmSigQuery cfg pd) with e | b
    · have : evmAuthCheck cfg env pd =
        some { status := 200, isValid := false, payer := some pd.payload.fromAddr
             , invalidReason := some "Signature verification failed" } := by
        simp [evmAuthCheck, hand, hq]
      rw [this] at hvalid
      simp at hvalid
    · cases b
      · have : evmAuthCheck cfg env pd =
          some { status := 200, isValid := false, payer := some pd.payload.fromAddr
               , invalidReason := some "Invalid signature" } := by
          simp [evmAuthCheck, hand, hq]
        rw [this] at hvalid
        simp at hvalid
      · rfl

/-- C6 witness: for the sample Base proof the domain is bound to the sample
configuration's Base facilitator address. -/
theorem c6_witness :
    (evmSigQuery sampleCfg basePaymentData).domain.verifyingContract =
      sampleCfg.baseFacilitatorAddress :=
  (c6_domain_binds_facilitator sampleCfg sampleVerifyEnv basePaymentData sampleReqs
    rfl (by decide) (by decide)).2.1 (by decide)

/-- A conjunction of boolean truths failing makes the conjunction false. -/
theorem and_false_of_not_both {a b : Bool} (h : ¬(a = true ∧ b = true)) :
    (a && b) = false := by
  rcases ha : a with _ | _
  · simp
  · rcases hb : b with _ | _
    · simp
    · exact absurd ⟨ha, hb⟩ h

/-- Sample configuration with no Solana signing key: the ledger
`solana-mainnet-beta` is absent from the Capability Registry. -/
def noSolanaCfg : Config :=
  { sampleCfg with solanaFacilitatorPrivateKey := "" }

/-- Sample Solana payment header. -/
def solanaPaymentData : PaymentData :=
  { scheme := "exact", network := "solana-mainnet-beta", payload := samplePayload }

/-- Sample payment header naming a network outside the dispatch set. -/
def gnosisPaymentData : PaymentData :=
  { scheme := "exact", network := "gnosis", payload := samplePayload }

/-- C1 counterexample: with the Solana key unconfigured the ledger
`solana-mainnet-beta` is absent from the Capability Registry, yet a settle
call naming it is still dispatched and fails with `errorReason`
`SOLANA_FACILITATOR_PRIVATE_KEY not configured`, which does not contain
"ledger" — so the claim, as stated, is false.  (No signing key is touched
here, but the reason clause already fails.) -/
theorem c1_counterexample :
    (getSupportedNetworks noSolanaCfg).all
      (fun k => k.network != "solana-mainnet-beta") = true ∧
    (settlePayment noSolanaCfg sampleSettleEnv (.ok solanaPaymentData)).1.success = false ∧
    containsStr "ledger"
      (((settlePayment noSolanaCfg sampleSettleEnv
        (.ok solanaPaymentData)).1.errorReason).getD "") = false := by
  decide

/-- C1 (amended): the settle route rejects by network name, not by Registry
lookup.  A proof naming a network outside the hard-coded dispatch set is
rejected with `errorReason` containing "network" (the code's word for
ledger), with no signing key loaded and no network call; a dispatchable
ledger that is absent from the Capability Registry is still dispatched —
with the Solana key unconfigured the Solana settler throws
`SOLANA_FACILITATOR_PRIVATE_KEY not configured` before touching key
material. -/
theorem c1_amended_settle_unknown_network :
    (∀ (cfg : Config) (env : SettleEnv) (pd : PaymentData),
      pd.scheme = "exact" →
      pd.network ≠ "solana-mainnet-beta" →
      (isBaseNet pd.network || isRadiusNet pd.network) = false →
      (settlePayment cfg env (.ok pd)).1.success = false ∧
      (settlePayment cfg env (.ok pd)).1.errorReason =
        some ("Unknown network: " ++ pd.network) ∧
      containsStr "network" ("Unknown network: " ++ pd.network) = true ∧
      (settlePayment cfg env (.ok pd)).2 = noEffects) ∧
    (∀ (cfg : Config) (env : SettleEnv) (pd : PaymentData),
      pd.scheme = "exact" →
      pd.network = "solana-mainnet-beta" →
      cfg.solanaFacilitatorPrivateKey = "" →
      settlePayment cfg env (.ok pd) =
        ( { status := 200, success := false, payer := orUnknown pd.payload.fromAddr
          , transaction := "", network := "solana-mainnet-beta"
          , errorReason := some "SOLANA_FACILITATOR_PRIVATE_KEY not configured" }
        , noEffects )) := by
  constructor
  · intro cfg env pd hs hsol hn
    refine ⟨?_, ?_, containsStr_append_left "network" "Unknown network: " pd.network (by decide), ?_⟩ <;>
      simp [settlePayment, hs, hsol, hn]
  · intro cfg env pd hs hsol hkey
    simp [settlePayment, settleSolanaPayment, hs, hsol, hkey]

/-- C1 witness: a settle call naming the unknown network `gnosis` fails with
reason `Unknown network: gnosis` and produces no effects. -/
theorem c1_witness :
    (settlePayment sampleCfg sampleSettleEnv (.ok gnosisPaymentData)).1.success = false ∧
    (settlePayment sampleCfg sampleSettleEnv (.ok gnosisPaymentData)).1.errorReason =
      some ("Unknown network: " ++ gnosisPaymentData.network) ∧
    containsStr "network" ("Unknown network: " ++ gnosisPaymentData.network) = true ∧
    (settlePayment sampleCfg sampleSettleEnv (.ok gnosisPaymentData)).2 = noEffects :=
  c1_amended_settle_unknown_network.1 sampleCfg sampleSettleEnv gnosisPaymentData
    rfl (by decide) (by decide)

/-- Sample Base payment header that also carries a pre-signed transaction. -/
def baseWithSignedTx : PaymentData :=
  { scheme := "exact", network := "base"
  , payload := { samplePayload with signedTransaction := some "0xSignedTx" } }

/-- Sample Radius payment header carrying a pre-signed transaction. -/
def radiusWithSignedTx : PaymentData :=
  { scheme := "exact", network := "radius-testnet"
  , payload := { samplePayload with signedTransaction := some "0xSignedTx" } }

/-- Sample verify environment whose typed-data oracle rejects every
signature. -/
def rejectSigEnv : VerifyEnv :=
  { sampleVerifyEnv with verifyTypedData := fun _ => .ok false }

/-- C3 counterexample: a Base payload carrying `ledgerSpecificAuth`
(`signedTransaction` present) is still decided by plain EIP-712 signature
verification — rejecting typed-data oracle gives `Invalid signature`,
accepting oracle gives `isValid = true` — so "whenever ledgerSpecificAuth is
present, plain-signature verification is not performed" is false. -/
theorem c3_counterexample :
    hasSignedTransaction baseWithSignedTx.payload = true ∧
    (verifyPayment sampleCfg rejectSigEnv (.ok baseWithSignedTx) sampleReqs).isValid = false ∧
    (verifyPayment sampleCfg rejectSigEnv (.ok baseWithSignedTx) sampleReqs).invalidReason =
      some "Invalid signature" ∧
    (verifyPayment sampleCfg sampleVerifyEnv (.ok baseWithSignedTx) sampleReqs).isValid = true := by
  decide

/-- C3 (amended): exactly one mechanism governs each payload, but the
pre-signed transaction governs only on the Radius network: when the network
is Radius and `signedTransaction` is truthy, the verdict is independent of
the typed-data signature oracle; in every other case (including a Base
payload that carries `signedTransaction`) the verdict is independent of the
transaction parser — never both for the same payload. -/
theorem c3_amended_single_auth_mechanism :
    (∀ (cfg : Config) (env : VerifyEnv) (f : TypedDataQuery → Except String Bool)
       (pd : PaymentData) (reqs : Requirements),
      isRadiusNet pd.network = true →
      hasSignedTransaction pd.payload = true →
      verifyPayment cfg { env with verifyTypedData := f } (.ok pd) reqs =
        verifyPayment cfg env (.ok pd) reqs) ∧
    (∀ (cfg : Config) (env : VerifyEnv) (g : String → Option ParsedTransaction)
       (pd : PaymentData) (reqs : Requirements),
      ¬(isRadiusNet pd.network = true ∧ hasSignedTransaction pd.payload = true) →
      verifyPayment cfg { env with parseTransaction := g } (.ok pd) reqs =
        verifyPayment cfg env (.ok pd) reqs) := by
  constructor
  · intro cfg env f pd reqs hr hst
    by_cases hs : pd.scheme = "exact"
    · have hn : (isBaseNet pd.network || isRadiusNet pd.network) = true := by
        simp [hr]
      rw [verifyPayment_evm _ _ _ _ hs hn, verifyPayment_evm _ _ _ _ hs hn]
      have hauth : evmAuthCheck cfg { env with verifyTypedData := f } pd =
          evmAuthCheck cfg env pd := by
        simp [evmAuthCheck, hr, hst]
      rw [hauth]
      rfl
    · simp [verifyPayment, hs]
  · intro cfg env g pd reqs hnot
    by_cases hs : pd.scheme = "exact"
    · by_cases hsol : pd.network = "solana-mainnet-beta"
      · simp only [verifyPayment, hs, hsol]
        rfl
      · by_cases hn : (isBaseNet pd.network || isRadiusNet pd.network) = true
        · rw [verifyPayment_evm _ _ _ _ hs hn, verifyPayment_evm _ _ _ _ hs hn]
          have hauth : evmAuthCheck cfg { env with parseTransaction := g } pd =
              evmAuthCheck cfg env pd := by
            simp [evmAuthCheck, and_false_of_not_both hnot]
          rw [hauth]
          rfl
        · have hn' : (isBaseNet pd.network || isRadiusNet pd.network) = false := by
            rcases h2 : (isBaseNet pd.network || isRadiusNet pd.network) with _ | _
            · rfl
            · exact absurd h2 hn
          simp [verifyPayment, hs, hsol, hn']
    · simp [verifyPayment, hs]

/-- C3 witness: for a Radius proof carrying a pre-signed transaction, the
verdict does not change when the typed-data oracle is replaced by one that
rejects everything. -/
theorem c3_witness :
    verifyPayment sampleCfg rejectSigEnv (.ok radiusWithSignedTx) sampleReqs =
      verifyPayment sampleCfg sampleVerifyEnv (.ok radiusWithSignedTx) sampleReqs :=
  c3_amended_single_auth_mechanism.1 sampleCfg sampleVerifyEnv (fun _ => .ok false)
    radiusWithSignedTx sampleReqs (by decide) (by decide)

/-- Sample settle environment in real mode whose ledger happens to assign
the transaction signature `bs58Encode (List.replicate 64 0)`. -/
def realSolanaSettleEnv : SettleEnv :=
  { sampleSettleEnv with
    useRealSettlement := true
  , sendAndConfirmTransaction := .ok (bs58Encode (List.replicate 64 0)) }

set_option maxRecDepth 4000 in
/-- C2 counterexample: the simulated Solana settlement reference is the
base58 encoding of 64 random bytes — exactly the format of a real
transaction signature — and a real settlement can return the very same
string, so the simulated reference is not distinguishable and there is no
reserved sentinel format. -/
theorem c2_counterexample :
    (settlePayment sampleCfg sampleSettleEnv (.ok solanaPaymentData)).1.success = true ∧
    solanaSignatureFormat
      (settlePayment sampleCfg sampleSettleEnv (.ok solanaPaymentData)).1.transaction ∧
    (settlePayment sampleCfg realSolanaSettleEnv (.ok solanaPaymentData)).1.success = true ∧
    (settlePayment sampleCfg realSolanaSettleEnv (.ok solanaPaymentData)).1.transaction =
      (settlePayment sampleCfg sampleSettleEnv (.ok solanaPaymentData)).1.transaction :=
  ⟨by decide, ⟨List.replicate 64 0, by decide, by decide, rfl⟩, by decide, by decide⟩

/-- C2 (amended): in simulated mode no network call is performed, and the
EVM simulated reference (`0x` plus four `Math.random` hex fragments, each at
most 14 characters) has length at most 58, so it never matches the 66
character format of a real EVM transaction hash; the Solana simulated
reference, however, is `bs58Encode` of the 64 random bytes and therefore has
exactly the format of a real transaction signature. -/
theorem c2_amended_simulated_settlement :
    (∀ (cfg : Config) (env : SettleEnv) (pd : PaymentData),
      pd.scheme = "exact" →
      (isBaseNet pd.network || isRadiusNet pd.network) = true →
      env.useRealSettlement = false →
      env.privateKeyToAccount (if isBaseNet pd.network
        then cfg.baseFacilitatorPrivateKey
        else cfg.radiusFacilitatorPrivateKey) = .ok () →
      (∀ i : Fin 4, (env.randFrags i).length ≤ 14) →
      (settlePayment cfg env (.ok pd)).1.success = true ∧
      (settlePayment cfg env (.ok pd)).1.transaction = evmSimulatedTxHash env.randFrags ∧
      (settlePayment cfg env (.ok pd)).2.networkCalls = 0 ∧
      (settlePayment cfg env (.ok pd)).1.transaction.length ≤ 58 ∧
      ¬evmTxHashFormat (settlePayment cfg env (.ok pd)).1.transaction) ∧
    (∀ (cfg : Config) (env : SettleEnv) (pd : PaymentData),
      pd.scheme = "exact" →
      pd.network = "solana-mainnet-beta" →
      env.useRealSettlement = false →
      cfg.solanaFacilitatorPrivateKey ≠ "" →
      env.parseSolanaKey cfg.solanaFacilitatorPrivateKey = .ok () →
      (settlePayment cfg env (.ok pd)).1.success = true ∧
      (settlePayment cfg env (.ok pd)).1.transaction = bs58Encode env.randBytes ∧
      (settlePayment cfg env (.ok pd)).2.networkCalls = 0 ∧
      (env.randBytes.length = 64 → (∀ b ∈ env.randBytes, b < 256) →
        solanaSignatureFormat (settlePayment cfg env (.ok pd)).1.transaction)) := by
  constructor
  · intro cfg env pd hs hn hreal hkey hfrag
    have hsol := not_solana_of_evm hn
    have hres : settlePayment cfg env (.ok pd) =
        ( { status := 200, success := true, payer := pd.payload.fromAddr
          , transaction := evmSimulatedTxHash env.randFrags
          , network := pd.network, errorReason := none }
        , { evmKeyLoaded := true, solanaKeyLoaded := false, networkCalls := 0 } ) := by
      simp [settlePayment, hs, hsol, hn, hkey, hreal]
    have hlen : (evmSimulatedTxHash env.randFrags).length ≤ 58 := by
      have e0 := hfrag 0
      have e1 := hfrag 1
      have e2 := hfrag 2
      have e3 := hfrag 3
      have h2 : ("0x" : String).length = 2 := rfl
      simp only [evmSimulatedTxHash, String.length_append]
      omega
    rw [hres]
    dsimp only
    refine ⟨rfl, rfl, rfl, hlen, ?_⟩
    rintro ⟨h66, -, -⟩
    omega
  · intro cfg env pd hs hsol hreal hk hkey
    have hres : settlePayment cfg env (.ok pd) =
        ( { status := 200, success := true, payer := pd.payload.fromAddr
          , transaction := bs58Encode env.randBytes
          , network := "solana-mainnet-beta", errorReason := none }
        , { evmKeyLoaded := false, solanaKeyLoaded := true, networkCalls := 0 } ) := by
      simp [settlePayment, settleSolanaPayment, hs, hsol, hk, hkey, hreal]
    rw [hres]
    exact ⟨rfl, rfl, rfl, fun hl hb => ⟨env.randBytes, hl, hb, rfl⟩⟩

/-- C2 witness: the sample simulated Base settlement succeeds with the
`Math.random`-built reference, makes no network call, and its reference does
not have the real transaction-hash format. -/
theorem c2_witness :
    (settlePayment sampleCfg sampleSettleEnv (.ok basePaymentData)).1.success = true ∧
    (settlePayment sampleCfg sampleSettleEnv (.ok basePaymentData)).1.transaction =
      evmSimulatedTxHash sampleSettleEnv.randFrags ∧
    (settlePayment sampleCfg sampleSettleEnv (.ok basePaymentData)).2.networkCalls = 0 ∧
    (settlePayment sampleCfg sampleSettleEnv (.ok basePaymentData)).1.transaction.length ≤ 58 ∧
    ¬evmTxHashFormat (settlePayment sampleCfg sampleSettleEnv (.ok basePaymentData)).1.transaction :=
  c2_amended_simulated_settlement.1 sampleCfg sampleSettleEnv basePaymentData
    rfl (by decide) rfl (by decide) (by decide)

/-- Agreement of two settle calls that differ only in the network string:
every response component except the echoed `network` field, and the side
effects, coincide. -/
def settleAgrees (cfg : Config) (env : SettleEnv) (pl : PaymentPayload)
    (n₁ n₂ : String) : Prop :=
  ((settlePayment cfg env (.ok ⟨"exact", n₁, pl⟩)).1.status =
    (settlePayment cfg env (.ok ⟨"exact", n₂, pl⟩)).1.status) ∧
  ((settlePayment cfg env (.ok ⟨"exact", n₁, pl⟩)).1.success =
    (settlePayment cfg env (.ok ⟨"exact", n₂, pl⟩)).1.success) ∧
  ((settlePayment cfg env (.ok ⟨"exact", n₁, pl⟩)).1.payer =
    (settlePayment cfg env (.ok ⟨"exact", n₂, pl⟩)).1.payer) ∧
  ((settlePayment cfg env (.ok ⟨"exact", n₁, pl⟩)).1.transaction =
    (settlePayment cfg env (.ok ⟨"exact", n₂, pl⟩)).1.transaction) ∧
  ((settlePayment cfg env (.ok ⟨"exact", n₁, pl⟩)).1.errorReason =
    (settlePayment cfg env (.ok ⟨"exact", n₂, pl⟩)).1.errorReason) ∧
  ((settlePayment cfg env (.ok ⟨"exact", n₁, pl⟩)).2 =
    (settlePayment cfg env (.ok ⟨"exact", n₂, pl⟩)).2)

/-- Two EVM network strings with the same classification produce settlements
agreeing on everything but the echoed network string. -/
theorem settle_components_network_congr (cfg : Config) (env : SettleEnv)
    (pl : PaymentPayload) (n₁ n₂ : String)
    (h1 : isBaseSepoliaNet n₁ = isBaseSepoliaNet n₂)
    (h2 : isBaseMainnetNet n₁ = isBaseMainnetNet n₂)
    (h3 : isRadiusNet n₁ = isRadiusNet n₂)
    (htrue : (isBaseNet n₁ || isRadiusNet n₁) = true) :
    settleAgrees cfg env pl n₁ n₂ := by
  have hb : isBaseNet n₁ = isBaseNet n₂ := by
    simp [isBaseNet, h1, h2]
  have ht2 : (isBaseNet n₂ || isRadiusNet n₂) = true := by
    rw [← hb, ← h3]
    exact htrue
  have hs1 : n₁ ≠ "solana-mainnet-beta" := not_solana_of_evm htrue
  have hs2 : n₂ ≠ "solana-mainnet-beta" := not_solana_of_evm ht2
  simp only [settleAgrees, settlePayment]
  simp only [hs1, hs2, htrue, ht2, hb, h3]
  simp only [ne_eq, not_true_eq_false, if_false, if_neg, Bool.or_self]
  rcases hk : env.privateKeyToAccount
      (if isBaseNet n₂ then cfg.baseFacilitatorPrivateKey
       else cfg.radiusFacilitatorPrivateKey) with e | u <;>
    simp [hk, hs1, hs2, htrue, ht2] <;>
    rcases hreal : env.useRealSettlement with _ | _ <;>
    simp [hreal] <;>
    by_cases hbn : isBaseNet n₂ = true <;>
    simp [hbn] <;>
    first
    | (rcases hw : env.writeContract with e | h <;> simp [hw] <;>
       rcases hr : env.waitForTransactionReceipt with e | u <;> simp [hr])
    | (rcases hsg : hasSignedTransaction pl with _ | _ <;> simp [hsg] <;>
       rcases hw : env.sendRawTransaction with e | h <;> simp [hw] <;>
       rcases hr : env.waitForTransactionReceipt with e | u <;> simp [hr])

/-- C10: the decimal chain-id strings `8453`, `84532` and `1223953` are
accepted by verify and settle exactly like the names `base`, `base-sepolia`
and `radius-testnet`: verification results are identical, settlement results
agree on everything except the verbatim-echoed network string, yet discovery
never lists a chain-id string. -/
theorem c10_chain_id_aliases :
    (∀ (cfg : Config) (env : VerifyEnv) (pl : PaymentPayload) (reqs : Requirements),
      verifyPayment cfg env (.ok ⟨"exact", "8453", pl⟩) reqs =
        verifyPayment cfg env (.ok ⟨"exact", "base", pl⟩) reqs ∧
      verifyPayment cfg env (.ok ⟨"exact", "84532", pl⟩) reqs =
        verifyPayment cfg env (.ok ⟨"exact", "base-sepolia", pl⟩) reqs ∧
      verifyPayment cfg env (.ok ⟨"exact", "1223953", pl⟩) reqs =
        verifyPayment cfg env (.ok ⟨"exact", "radius-testnet", pl⟩) reqs) ∧
    (∀ (cfg : Config) (env : SettleEnv) (pl : PaymentPayload),
      settleAgrees cfg env pl "8453" "base" ∧
      settleAgrees cfg env pl "84532" "base-sepolia" ∧
      settleAgrees cfg env pl "1223953" "radius-testnet") ∧
    (∀ cfg : Config,
      (getSupportedNetworks cfg).all
        (fun k => k.network != "8453" && k.network != "84532" &&
          k.network != "1223953") = true) := by
  refine ⟨fun cfg env pl reqs => ⟨rfl, rfl, rfl⟩, fun cfg env pl => ⟨?_, ?_, ?_⟩, ?_⟩
  · exact settle_components_network_congr cfg env pl "8453" "base"
      rfl rfl rfl (by decide)
  · exact settle_components_network_congr cfg env pl "84532" "base-sepolia"
      rfl rfl rfl (by decide)
  · exact settle_components_network_congr cfg env pl "1223953" "radius-testnet"
      rfl rfl rfl (by decide)
  · intro cfg
    simp only [getSupportedNetworks]
    split_ifs <;> decide

end X402
